import Mathlib

/-!
Shallow embedding of the authentication core of the vostuff repository
(crates/vostuff-core/src/auth.rs, crates/vostuff-api/src/api/handlers/auth.rs,
src/api/middleware.rs), with the jsonwebtoken and password-hash library
behaviour the code relies on modelled explicitly.  UUIDs are modelled as
naturals, wall-clock instants as integer Unix timestamps passed explicitly
(the Rust code reads `Utc::now()` internally), and an encoded JWT as its
claim payload paired with the signing secret that produced it (a symmetric
MAC: validation succeeds exactly when the validating manager holds the same
secret).
-/

namespace Vostuff

/-- UUIDs are modelled as naturals; `uuidNil` stands for `Uuid::nil()`. -/
abbrev Uuid := Nat

def uuidNil : Uuid := 0

/-- The claim fields a JWT body can carry, each optional, as serde sees the
encoded JSON object.  `Claims` and `FollowOnClaims` serialize into this shape
(a follow-on payload simply has `organization_id` and `roles` absent). -/
structure Payload where
  sub : Option Uuid
  identity : Option String
  organization_id : Option Uuid
  roles : Option (List String)
  iat : Option Int
  exp : Option Int
deriving Repr, DecidableEq

/-- An encoded, signed token: the payload plus the MAC.  The MAC is modelled
as the signing secret itself; `decode` accepts the token iff the decoding
secret equals it, which captures exactly the symmetric-key property the code
uses (same secret validates, different secret or forged MAC fails). -/
structure Jwt where
  payload : Payload
  mac : String
deriving Repr, DecidableEq

/-- The jsonwebtoken error cases this code can hit, modelled from the
library: signature mismatch, a required registered claim missing, an elapsed
`exp`, or a serde failure deserializing the payload into the target claims
struct (reported as the first missing field in declaration order). -/
inductive JwtError where
  | invalidSignature
  | missingRequiredClaim (claim : String)
  | expiredSignature
  | jsonMissingField (field : String)
deriving Repr, DecidableEq

/-- The `Display` rendering of the library error, as it is interpolated into
the handler's `anyhow!("Failed to validate token: {}", e)` message.  The
exact wording is modelled; what matters is that distinct causes render
distinctly, which they do in the library. -/
def JwtError.render : JwtError → String
  | .invalidSignature => "InvalidSignature"
  | .missingRequiredClaim c => "Missing required claim: " ++ c
  | .expiredSignature => "ExpiredSignature"
  | .jsonMissingField f => "JSON error: missing field " ++ f

/-- `Claims`: the session-token claims struct (vostuff-core/src/auth.rs).
Every field is required; serde rejects a payload lacking any of them. -/
structure Claims where
  sub : Uuid
  identity : String
  organization_id : Uuid
  roles : List String
  iat : Int
  exp : Int
deriving Repr, DecidableEq

/-- `FollowOnClaims`: the short-lived org-selection claims struct.  It has no
organization and no roles by construction. -/
structure FollowOnClaims where
  sub : Uuid
  identity : String
  iat : Int
  exp : Int
deriving Repr, DecidableEq

/-- `TokenManager::new` builds encoding and decoding keys from one secret and
a `Validation` requiring the registered claims exp, sub, iat; only the secret
is state in the model, the validation settings being fixed. -/
structure TokenManager where
  secret : String
deriving Repr, DecidableEq

/-- jsonwebtoken's `Validation::new` default clock-skew leeway, in seconds:
a token only counts as expired once `exp < now - leeway`. -/
def jwtLeeway : Int := 60

/-- Serialization of `Claims` (all fields present). -/
def Claims.toPayload (c : Claims) : Payload :=
  { sub := some c.sub, identity := some c.identity,
    organization_id := some c.organization_id, roles := some c.roles,
    iat := some c.iat, exp := some c.exp }

/-- Serialization of `FollowOnClaims` (no organization, no roles). -/
def FollowOnClaims.toPayload (c : FollowOnClaims) : Payload :=
  { sub := some c.sub, identity := some c.identity,
    organization_id := none, roles := none,
    iat := some c.iat, exp := some c.exp }

/-- The `set_required_spec_claims(&["exp", "sub", "iat"])` presence check. -/
def Payload.specClaimsCheck (p : Payload) : Option JwtError :=
  if p.exp.isNone then some (.missingRequiredClaim "exp")
  else if p.sub.isNone then some (.missingRequiredClaim "sub")
  else if p.iat.isNone then some (.missingRequiredClaim "iat")
  else none

/-- The expiry check: expired iff `exp < now - leeway` (library default
leeway 60s); an absent exp was already rejected by the spec-claims check. -/
def Payload.expCheck (p : Payload) (now : Int) : Option JwtError :=
  match p.exp with
  | some e => if e < now - jwtLeeway then some .expiredSignature else none
  | none => none

/-- serde deserialization of a payload into `Claims`: every field required,
the first absent field (in struct declaration order) is the error. -/
def Payload.toClaims (p : Payload) : Except JwtError Claims :=
  match p.sub with
  | none => .error (.jsonMissingField "sub")
  | some sub =>
    match p.identity with
    | none => .error (.jsonMissingField "identity")
    | some identity =>
      match p.organization_id with
      | none => .error (.jsonMissingField "organization_id")
      | some organization_id =>
        match p.roles with
        | none => .error (.jsonMissingField "roles")
        | some roles =>
          match p.iat with
          | none => .error (.jsonMissingField "iat")
          | some iat =>
            match p.exp with
            | none => .error (.jsonMissingField "exp")
            | some exp =>
              .ok { sub, identity, organization_id, roles, iat, exp }

/-- serde deserialization of a payload into `FollowOnClaims`. -/
def Payload.toFollowOnClaims (p : Payload) : Except JwtError FollowOnClaims :=
  match p.sub with
  | none => .error (.jsonMissingField "sub")
  | some sub =>
    match p.identity with
    | none => .error (.jsonMissingField "identity")
    | some identity =>
      match p.iat with
      | none => .error (.jsonMissingField "iat")
      | some iat =>
        match p.exp with
        | none => .error (.jsonMissingField "exp")
        | some exp =>
          .ok { sub, identity, iat, exp }

/-- `jsonwebtoken::decode::<T>`: verify the signature, check the required
registered claims and the expiry, then deserialize into the target struct.
Instantiated at `Claims`. -/
def TokenManager.decodeClaims (tm : TokenManager) (now : Int) (t : Jwt) :
    Except JwtError Claims :=
  if t.mac ≠ tm.secret then .error .invalidSignature
  else match t.payload.specClaimsCheck with
    | some e => .error e
    | none =>
      match t.payload.expCheck now with
      | some e => .error e
      | none => t.payload.toClaims

/-- `jsonwebtoken::decode::<FollowOnClaims>`. -/
def TokenManager.decodeFollowOnClaims (tm : TokenManager) (now : Int) (t : Jwt) :
    Except JwtError FollowOnClaims :=
  if t.mac ≠ tm.secret then .error .invalidSignature
  else match t.payload.specClaimsCheck with
    | some e => .error e
    | none =>
      match t.payload.expCheck now with
      | some e => .error e
      | none => t.payload.toFollowOnClaims

/-- `TokenManager::generate_token`: claims with `iat = now`,
`exp = now + expires_in_hours hours`, signed with the manager's secret. -/
def TokenManager.generate_token (tm : TokenManager) (now : Int) (user_id : Uuid)
    (identity : String) (organization_id : Uuid) (roles : List String)
    (expires_in_hours : Int) : Jwt :=
  let claims : Claims :=
    { sub := user_id, identity, organization_id, roles,
      iat := now, exp := now + 3600 * expires_in_hours }
  { payload := claims.toPayload, mac := tm.secret }

/-- `TokenManager::generate_follow_on_token`: `exp = now + 5 minutes`. -/
def TokenManager.generate_follow_on_token (tm : TokenManager) (now : Int)
    (user_id : Uuid) (identity : String) : Jwt :=
  let claims : FollowOnClaims :=
    { sub := user_id, identity, iat := now, exp := now + 300 }
  { payload := claims.toPayload, mac := tm.secret }

/-- `TokenManager::validate_token`: decode as `Claims`, folding every decode
failure into one anyhow error whose message interpolates the library
error. -/
def TokenManager.validate_token (tm : TokenManager) (now : Int) (t : Jwt) :
    Except String Claims :=
  (tm.decodeClaims now t).mapError
    (fun e => "Failed to validate token: " ++ e.render)

/-- `TokenManager::validate_follow_on_token`. -/
def TokenManager.validate_follow_on_token (tm : TokenManager) (now : Int)
    (t : Jwt) : Except String FollowOnClaims :=
  (tm.decodeFollowOnClaims now t).mapError
    (fun e => "Failed to validate follow-on token: " ++ e.render)

/-- `AuthContext` (vostuff-core/src/auth.rs). -/
structure AuthContext where
  user_id : Uuid
  identity : String
  organization_id : Uuid
  roles : List String
  is_authenticated : Bool
deriving Repr, DecidableEq

/-- `AuthContext::unauthenticated`. -/
def AuthContext.unauthenticated : AuthContext :=
  { user_id := uuidNil, identity := "", organization_id := uuidNil,
    roles := [], is_authenticated := false }

/-- `AuthContext::from_claims`. -/
def AuthContext.from_claims (claims : Claims) : AuthContext :=
  { user_id := claims.sub, identity := claims.identity,
    organization_id := claims.organization_id, roles := claims.roles,
    is_authenticated := true }

/-- `AuthContext::has_org_access`: authenticated and exact equality with the
selected organization. -/
def AuthContext.has_org_access (c : AuthContext) (org_id : Uuid) : Bool :=
  c.is_authenticated && c.organization_id == org_id

/-- `AuthContext::has_role`. -/
def AuthContext.has_role (c : AuthContext) (role : String) : Bool :=
  c.is_authenticated && c.roles.contains role

/-- `AuthContext::is_admin`. -/
def AuthContext.is_admin (c : AuthContext) : Bool :=
  c.has_role "ADMIN"

/-- A parsed PHC-format password hash, as `PasswordHash::new` of the
password-hash crate accepts it: a leading dollar separator, then an
algorithm identifier of 1 to 32 characters drawn from lowercase letters,
digits and hyphen; the remaining dollar-separated fields (version, params,
salt, hash) are carried verbatim. -/
structure PhcHash where
  algorithm : String
  fields : List String
deriving Repr, DecidableEq

def isPhcIdentChar (c : Char) : Bool :=
  (decide ('a' ≤ c) && decide (c ≤ 'z')) ||
  (decide ('0' ≤ c) && decide (c ≤ '9')) || c == '-'

/-- Split a character list on the dollar separator (the semantics of the
string split the library performs, structurally recursive so concrete
hashes evaluate). -/
def splitDollars : List Char → List (List Char)
  | [] => [[]]
  | c :: cs =>
    match splitDollars cs with
    | f :: rest => if c == '$' then [] :: f :: rest else (c :: f) :: rest
    | [] => if c == '$' then [[], []] else [[c]]

def phcParse (s : String) : Option PhcHash :=
  match splitDollars s.toList with
  | [] :: ident :: fields =>
    if decide (1 ≤ ident.length) && decide (ident.length ≤ 32) &&
        ident.all isPhcIdentChar
    then some { algorithm := String.mk ident, fields := fields.map String.mk }
    else none
  | _ => none

/-- `PasswordHasher::verify_password`: parse the stored PHC hash — a parse
failure is an `Err`, not a `false` — then recompute argon2 over the supplied
password and compare.  The recomputation is the abstract oracle
`argonVerify` (argon2 itself is not embedded); the parse-failure message
models the anyhow interpolation of the library's parse error. -/
def PasswordHasher.verify_password (argonVerify : String → PhcHash → Bool)
    (password hash : String) : Except String Bool :=
  match phcParse hash with
  | none => .error "Failed to parse password hash: invalid encoding"
  | some parsed => .ok (argonVerify password parsed)

/-- `ErrorResponse` (api/models.rs): the structured error body. -/
structure ErrorResponse where
  error : String
  message : String
deriving Repr, DecidableEq

/-- A row of the users table as the login handler selects it:
id, name, identity, password_hash. -/
structure UserRow where
  id : Uuid
  name : String
  identity : String
  password_hash : Option String
deriving Repr, DecidableEq

/-- A membership row as the login handler's join selects it: organization
id, name, description, and the roles of that membership. -/
structure OrgRow where
  id : Uuid
  name : String
  description : Option String
  roles : List String
deriving Repr, DecidableEq

/-- `Organization` (api/models.rs); the auth handlers fill both timestamps
with the current instant. -/
structure Organization where
  id : Uuid
  name : String
  description : Option String
  created_at : Int
  updated_at : Int
deriving Repr, DecidableEq

/-- `UserInfo` (api/models.rs). -/
structure UserInfo where
  id : Uuid
  name : String
  identity : String
  organization : Organization
  roles : List String
deriving Repr, DecidableEq

/-- `LoginResponse` (api/models.rs): the SessionIssued body. -/
structure LoginResponse where
  token : Jwt
  expires_in : Int
  user : UserInfo
deriving Repr, DecidableEq

/-- `OrganizationWithRoles` (api/models.rs). -/
structure OrganizationWithRoles where
  id : Uuid
  name : String
  description : Option String
  roles : List String
deriving Repr, DecidableEq

/-- `OrgSelectionResponse` (api/models.rs): the OrgChoiceRequired body. -/
structure OrgSelectionResponse where
  organizations : List OrganizationWithRoles
  follow_on_token : Jwt
deriving Repr, DecidableEq

/-- The two success body shapes `login` can serialize: structurally distinct
records (token/user pair vs organizations/follow_on_token pair). -/
inductive ApiBody where
  | session (resp : LoginResponse)
  | orgChoice (resp : OrgSelectionResponse)
deriving Repr, DecidableEq

/-- The outcome of the `login` handler: `Ok((status, body))` or
`Err((status, ErrorResponse))`. -/
inductive LoginResult where
  | ok (status : Nat) (body : ApiBody)
  | err (status : Nat) (body : ErrorResponse)
deriving Repr, DecidableEq

/-- The read-only store interface the auth handlers query: a user row by
identity, the membership rows of a user ordered by organization name, a
user's display name by id, and the (name, description, roles) of one
membership of a user in an organization. -/
structure Db where
  findUserByIdentity : String → Option UserRow
  orgsOf : Uuid → List OrgRow
  userNameById : Uuid → Option String
  membership : Uuid → Uuid → Option (String × Option String × List String)

/-- `LoginRequest` (api/models.rs). -/
structure LoginRequest where
  identity : String
  password : String
  organization_id : Option Uuid
deriving Repr, DecidableEq

/-- `SelectOrgRequest` (api/models.rs). -/
structure SelectOrgRequest where
  follow_on_token : Jwt
  organization_id : Uuid
deriving Repr, DecidableEq

/-- The uniform 401 the login handler returns for every authentication
failure cause. -/
def invalid_credentials_error : LoginResult :=
  .err 401 { error := "unauthorized", message := "Invalid credentials" }

/-- `internal_error`: maps any displayed error to a 500 body. -/
def internal_error (msg : String) : ErrorResponse :=
  { error := "internal_error", message := msg }

/-- The SessionIssued body both success paths of `login` build: a 24-hour
token, `expires_in` of 24*60*60 seconds, and the profile carrying the
selected organization and its membership's roles. -/
def sessionResponse (tm : TokenManager) (now : Int) (user : UserRow)
    (org : OrgRow) : LoginResponse :=
  { token := tm.generate_token now user.id user.identity org.id org.roles 24,
    expires_in := 24 * 60 * 60,
    user := { id := user.id, name := user.name, identity := user.identity,
              organization := { id := org.id, name := org.name,
                                description := org.description,
                                created_at := now, updated_at := now },
              roles := org.roles } }

/-- The `login` handler (vostuff-api handlers/auth.rs), with the store, the
argon2 oracle and the clock passed explicitly. -/
def login (argonVerify : String → PhcHash → Bool) (db : Db) (now : Int)
    (jwt_secret : String) (req : LoginRequest) : LoginResult :=
  match db.findUserByIdentity req.identity with
  | none => invalid_credentials_error
  | some user =>
    match user.password_hash with
    | none => invalid_credentials_error
    | some password_hash =>
      match PasswordHasher.verify_password argonVerify req.password password_hash with
      | .error e => .err 500 (internal_error e)
      | .ok is_valid =>
        if !is_valid then invalid_credentials_error
        else
          match db.orgsOf user.id with
          | [] =>
            .err 403 { error := "no_organization",
                       message := "User is not a member of any organization" }
          | first :: rest =>
            let org_rows := first :: rest
            let token_manager : TokenManager := { secret := jwt_secret }
            match req.organization_id with
            | some org_id =>
              match org_rows.find? (fun r => r.id == org_id) with
              | none =>
                .err 403 { error := "invalid_organization",
                           message := "User is not a member of the specified organization" }
              | some org_data =>
                .ok 200 (.session (sessionResponse token_manager now user org_data))
            | none =>
              match rest with
              | [] => .ok 200 (.session (sessionResponse token_manager now user first))
              | _ :: _ =>
                .ok 200 (.orgChoice
                  { organizations := org_rows.map (fun r =>
                      { id := r.id, name := r.name, description := r.description,
                        roles := r.roles }),
                    follow_on_token :=
                      token_manager.generate_follow_on_token now user.id user.identity })

/-- The outcome of the `select_org` handler: `Ok(Json(LoginResponse))` (a
200) or `Err((status, ErrorResponse))`. -/
inductive SelectOrgResult where
  | ok (resp : LoginResponse)
  | err (status : Nat) (body : ErrorResponse)
deriving Repr, DecidableEq

/-- The `select_org` handler (vostuff-api handlers/auth.rs). -/
def select_org (db : Db) (now : Int) (jwt_secret : String)
    (req : SelectOrgRequest) : SelectOrgResult :=
  let token_manager : TokenManager := { secret := jwt_secret }
  match token_manager.validate_follow_on_token now req.follow_on_token with
  | .error _ =>
    .err 401 { error := "invalid_token",
               message := "Invalid or expired follow-on token" }
  | .ok claims =>
    match db.userNameById claims.sub with
    | none => .err 401 { error := "user_not_found", message := "User not found" }
    | some user_name =>
      match db.membership claims.sub req.organization_id with
      | none =>
        .err 403 { error := "not_member",
                   message := "User is not a member of the specified organization" }
      | some (org_name, org_desc, roles) =>
        .ok { token := token_manager.generate_token now claims.sub
                         claims.identity req.organization_id roles 24,
              expires_in := 24 * 60 * 60,
              user := { id := claims.sub, name := user_name,
                        identity := claims.identity,
                        organization := { id := req.organization_id,
                                          name := org_name,
                                          description := org_desc,
                                          created_at := now, updated_at := now },
                        roles } }

/-- The outcome of `auth_middleware`: proceed with a context attached, or
reject before the handler runs. -/
inductive MiddlewareResult where
  | proceed (ctx : AuthContext)
  | reject (status : Nat) (body : ErrorResponse)
deriving Repr, DecidableEq

/-- `auth_middleware` (api/middleware.rs) after header extraction: no token
means an unauthenticated context; an invalid token is rejected with one
uniform 401 before any handler runs; a valid token becomes an authenticated
context. -/
def auth_middleware (jwt_secret : String) (now : Int) (token : Option Jwt) :
    MiddlewareResult :=
  match token with
  | none => .proceed AuthContext.unauthenticated
  | some t =>
    let token_manager : TokenManager := { secret := jwt_secret }
    match token_manager.validate_token now t with
    | .ok claims => .proceed (AuthContext.from_claims claims)
    | .error _ =>
      .reject 401 { error := "unauthorized",
                    message := "Invalid or expired token" }

/-- Whether an `Except` value is a success, as a Bool (so that statements
about validation failing stay decidable at concrete inputs). -/
def exceptIsOk : Except ε α → Bool
  | .ok _ => true
  | .error _ => false

instance [DecidableEq ε] [DecidableEq α] : DecidableEq (Except ε α) := fun x y =>
  match x, y with
  | .ok a, .ok b =>
    if h : a = b then isTrue (congrArg Except.ok h)
    else isFalse (fun hh => h (Except.ok.inj hh))
  | .ok _, .error _ => isFalse (fun hh => Except.noConfusion hh)
  | .error _, .ok _ => isFalse (fun hh => Except.noConfusion hh)
  | .error a, .error b =>
    if h : a = b then isTrue (congrArg Except.error h)
    else isFalse (fun hh => h (Except.error.inj hh))

/-- A well-formed argon2 PHC hash string, as `hash_password` produces. -/
def sampleHash : String := "$argon2id$v=19$m=19456,t=2,p=1$c2FsdA$aGFzaA"

/-- The parse of `sampleHash`. -/
def samplePhc : PhcHash :=
  { algorithm := "argon2id",
    fields := ["v=19", "m=19456,t=2,p=1", "c2FsdA", "aGFzaA"] }

/-- A user with a stored password hash. -/
def aliceRow : UserRow :=
  { id := 1, name := "Alice", identity := "alice@test.com",
    password_hash := some sampleHash }

/-- A user without a stored password hash. -/
def bobRow : UserRow :=
  { id := 2, name := "Bob", identity := "bob@test.com", password_hash := none }

def orgA : OrgRow :=
  { id := 10, name := "OrgA", description := none, roles := ["USER"] }

def orgB : OrgRow :=
  { id := 20, name := "OrgB", description := some "b", roles := ["ADMIN"] }

/-- A concrete store: Alice belongs to two organizations, Bob to none. -/
def sampleDb : Db :=
  { findUserByIdentity := fun i =>
      if i == "alice@test.com" then some aliceRow
      else if i == "bob@test.com" then some bobRow
      else none,
    orgsOf := fun uid => if uid == 1 then [orgA, orgB] else [],
    userNameById := fun uid => if uid == 1 then some "Alice" else none,
    membership := fun uid oid =>
      if uid == 1 && oid == 10 then some ("OrgA", none, ["USER"])
      else if uid == 1 && oid == 20 then some ("OrgB", some "b", ["ADMIN"])
      else none }

/-- A concrete argon2 oracle: only the stored password matches. -/
def sampleVerify : String → PhcHash → Bool := fun pw _ => pw == "password123"

/-- A concrete session token issued at instant 0 with a 1-hour ttl: expired
when validated at instant 10000. -/
def expiredTok : Jwt := TokenManager.generate_token ⟨"s"⟩ 0 1 "a" 2 ["USER"] 1

/-- The same payload under a different MAC: a forged token for the manager
holding secret "s". -/
def forgedTok : Jwt := { payload := expiredTok.payload, mac := "forged" }

/-- A concrete follow-on token for Alice, issued at instant 0. -/
def sampleFollowOn : Jwt :=
  TokenManager.generate_follow_on_token ⟨"s"⟩ 0 1 "alice@test.com"

theorem exceptIsOk_ok_ne {e : Except ε α} (h : exceptIsOk e = false) (a : α) :
    e ≠ .ok a := by
  cases e with
  | ok _ => simp [exceptIsOk] at h
  | error _ => simp

/-- Validating a freshly generated session token with the manager that
generated it succeeds and returns the issuance inputs, as long as the
validation instant is not past the expiry leeway window. -/
theorem validate_generate_token (tm : TokenManager) (now nowV : Int)
    (uid : Uuid) (ident : String) (oid : Uuid) (roles : List String)
    (hrs : Int) (hfresh : ¬ now + 3600 * hrs < nowV - jwtLeeway) :
    tm.validate_token nowV (tm.generate_token now uid ident oid roles hrs) =
      .ok { sub := uid, identity := ident, organization_id := oid,
            roles := roles, iat := now, exp := now + 3600 * hrs } := by
  simp [TokenManager.validate_token, TokenManager.decodeClaims,
    TokenManager.generate_token, Claims.toPayload, Payload.specClaimsCheck,
    Payload.expCheck, Payload.toClaims, Except.mapError, hfresh]

/-- Validating a freshly generated follow-on token with the manager that
generated it succeeds and returns the issuance inputs, as long as the
validation instant is not past the expiry leeway window. -/
theorem validate_generate_follow_on (tm : TokenManager) (now nowV : Int)
    (uid : Uuid) (ident : String)
    (hfresh : ¬ now + 300 < nowV - jwtLeeway) :
    tm.validate_follow_on_token nowV (tm.generate_follow_on_token now uid ident) =
      .ok { sub := uid, identity := ident, iat := now, exp := now + 300 } := by
  simp [TokenManager.validate_follow_on_token, TokenManager.decodeFollowOnClaims,
    TokenManager.generate_follow_on_token, FollowOnClaims.toPayload,
    Payload.specClaimsCheck, Payload.expCheck, Payload.toFollowOnClaims,
    Except.mapError, hfresh]

/-- C7: `has_org_access` is true exactly when the context is authenticated
and its organization_id equals the requested one; consequently a context
derived from claims scoped to organization A denies access to every B ≠ A. -/
theorem C7_has_org_access_exact (c : AuthContext) (o : Uuid) :
    (c.has_org_access o = true ↔ c.is_authenticated = true ∧ c.organization_id = o) ∧
    (∀ (claims : Claims) (b : Uuid), b ≠ claims.organization_id →
      (AuthContext.from_claims claims).has_org_access b = false) := by
  constructor
  · simp [AuthContext.has_org_access]
  · intro claims b hb
    simp [AuthContext.has_org_access, AuthContext.from_claims]
    exact fun h => absurd h.symm hb

/-- Witness for C7 at a concrete context and claims. -/
theorem C7_has_org_access_exact_witness :
    (AuthContext.from_claims
      { sub := 1, identity := "u", organization_id := 5, roles := ["USER"],
        iat := 0, exp := 10 }).has_org_access 6 = false :=
  (C7_has_org_access_exact
      (AuthContext.from_claims
        { sub := 1, identity := "u", organization_id := 5, roles := ["USER"],
          iat := 0, exp := 10 }) 6).2
    { sub := 1, identity := "u", organization_id := 5, roles := ["USER"],
      iat := 0, exp := 10 } 6 (by decide)

/-- C9: the unauthenticated context grants nothing: no organization access
(including to the nil UUID it itself stores), no role, no admin; and the
same holds for any context whose is_authenticated flag is false. -/
theorem C9_unauthenticated_grants_nothing (o : Uuid) (r : String) :
    AuthContext.unauthenticated.has_org_access o = false ∧
    AuthContext.unauthenticated.has_role r = false ∧
    AuthContext.unauthenticated.is_admin = false ∧
    AuthContext.unauthenticated.organization_id = uuidNil ∧
    AuthContext.unauthenticated.has_org_access uuidNil = false ∧
    (∀ c : AuthContext, c.is_authenticated = false →
      c.has_org_access o = false ∧ c.has_role r = false ∧ c.is_admin = false) := by
  refine ⟨rfl, rfl, rfl, rfl, rfl, ?_⟩
  intro c hc
  simp [AuthContext.has_org_access, AuthContext.has_role, AuthContext.is_admin, hc]

/-- Witness for C9 at a concrete organization id, role name and context. -/
theorem C9_unauthenticated_grants_nothing_witness :
    AuthContext.unauthenticated.has_org_access 7 = false ∧
    ({ user_id := 3, identity := "x", organization_id := 7, roles := ["ADMIN"],
       is_authenticated := false } : AuthContext).is_admin = false :=
  ⟨(C9_unauthenticated_grants_nothing 7 "ADMIN").1,
   ((C9_unauthenticated_grants_nothing 7 "ADMIN").2.2.2.2.2
      { user_id := 3, identity := "x", organization_id := 7, roles := ["ADMIN"],
        is_authenticated := false } rfl).2.2⟩

/-- C10: round-trip of issuance and validation at the issuance instant: a
fresh session token validates back to exactly the issuance inputs (for any
positive ttl), and a fresh follow-on token likewise. -/
theorem C10_token_round_trip (tm : TokenManager) (now : Int) (uid : Uuid)
    (ident : String) (oid : Uuid) (roles : List String) (hrs : Int)
    (hpos : 0 < hrs) :
    tm.validate_token now (tm.generate_token now uid ident oid roles hrs) =
      .ok { sub := uid, identity := ident, organization_id := oid,
            roles := roles, iat := now, exp := now + 3600 * hrs } ∧
    tm.validate_follow_on_token now (tm.generate_follow_on_token now uid ident) =
      .ok { sub := uid, identity := ident, iat := now, exp := now + 300 } :=
  ⟨validate_generate_token tm now now uid ident oid roles hrs
      (by simp [jwtLeeway]; omega),
   validate_generate_follow_on tm now now uid ident
      (by simp [jwtLeeway]; omega)⟩

/-- Witness for C10 at concrete inputs. -/
theorem C10_token_round_trip_witness :
    TokenManager.validate_token ⟨"s"⟩ 1000
        (TokenManager.generate_token ⟨"s"⟩ 1000 1 "a" 5 ["USER"] 24) =
      .ok { sub := 1, identity := "a", organization_id := 5, roles := ["USER"],
            iat := 1000, exp := 1000 + 3600 * 24 } :=
  (C10_token_round_trip ⟨"s"⟩ 1000 1 "a" 5 ["USER"] 24 (by decide)).1

/-- C3: a follow-on token can never be validated as a session token: for any
validation instant the decode fails, and within the token's acceptance
window the failure is precisely the missing required `organization_id`
field, never a success with null or default values. -/
theorem C3_follow_on_never_validates_as_session (tm : TokenManager)
    (now nowV : Int) (uid : Uuid) (ident : String) :
    exceptIsOk (tm.validate_token nowV
      (tm.generate_follow_on_token now uid ident)) = false ∧
    (¬ now + 300 < nowV - jwtLeeway →
      tm.validate_token nowV (tm.generate_follow_on_token now uid ident) =
        .error "Failed to validate token: JSON error: missing field organization_id") := by
  have hbody : ∀ hfresh : ¬ now + 300 < nowV - jwtLeeway,
      tm.validate_token nowV (tm.generate_follow_on_token now uid ident) =
        .error "Failed to validate token: JSON error: missing field organization_id" := by
    intro hfresh
    simp [TokenManager.validate_token, TokenManager.decodeClaims,
      TokenManager.generate_follow_on_token, FollowOnClaims.toPayload,
      Payload.specClaimsCheck, Payload.expCheck, Payload.toClaims,
      JwtError.render, Except.mapError, hfresh]
  constructor
  · by_cases hfresh : now + 300 < nowV - jwtLeeway
    · simp [TokenManager.validate_token, TokenManager.decodeClaims,
        TokenManager.generate_follow_on_token, FollowOnClaims.toPayload,
        Payload.specClaimsCheck, Payload.expCheck, hfresh, Except.mapError,
        exceptIsOk]
    · rw [hbody hfresh]; rfl
  · exact hbody

/-- Witness for C3 at a concrete manager and token, inside the window. -/
theorem C3_follow_on_never_validates_as_session_witness :
    TokenManager.validate_token ⟨"s"⟩ 0
        (TokenManager.generate_follow_on_token ⟨"s"⟩ 0 1 "a") =
      .error "Failed to validate token: JSON error: missing field organization_id" :=
  (C3_follow_on_never_validates_as_session ⟨"s"⟩ 0 0 1 "a").2 (by decide)

/-- C2: the three authentication-failure causes — unknown identity, wrong
secret for an existing identity, and an identity whose credential has no
secret hash — all produce the identical 401 response value
(error "unauthorized", message "Invalid credentials"). -/
theorem C2_uniform_authentication_failure
    (argonVerify : String → PhcHash → Bool) (db1 db2 db3 : Db) (now : Int)
    (jwt_secret : String) (r1 r2 r3 : LoginRequest)
    (u2 : UserRow) (h2 : String) (ph2 : PhcHash) (u3 : UserRow)
    (H1 : db1.findUserByIdentity r1.identity = none)
    (H2 : db2.findUserByIdentity r2.identity = some u2)
    (H2h : u2.password_hash = some h2)
    (H2p : phcParse h2 = some ph2)
    (H2v : argonVerify r2.password ph2 = false)
    (H3 : db3.findUserByIdentity r3.identity = some u3)
    (H3h : u3.password_hash = none) :
    login argonVerify db1 now jwt_secret r1 = invalid_credentials_error ∧
    login argonVerify db2 now jwt_secret r2 = invalid_credentials_error ∧
    login argonVerify db3 now jwt_secret r3 = invalid_credentials_error ∧
    invalid_credentials_error =
      .err 401 { error := "unauthorized", message := "Invalid credentials" } := by
  refine ⟨by simp [login, H1], ?_, by simp [login, H3, H3h], rfl⟩
  simp [login, PasswordHasher.verify_password, H2, H2h, H2p, H2v]

/-- Witness for C2: the three concrete failure causes against the sample
store yield the same response. -/
theorem C2_uniform_authentication_failure_witness :
    login sampleVerify sampleDb 0 "s"
        { identity := "nobody@test.com", password := "password123",
          organization_id := none } = invalid_credentials_error ∧
    login sampleVerify sampleDb 0 "s"
        { identity := "alice@test.com", password := "wrong",
          organization_id := none } = invalid_credentials_error ∧
    login sampleVerify sampleDb 0 "s"
        { identity := "bob@test.com", password := "password123",
          organization_id := none } = invalid_credentials_error :=
  have h := C2_uniform_authentication_failure sampleVerify sampleDb sampleDb
    sampleDb 0 "s"
    { identity := "nobody@test.com", password := "password123",
      organization_id := none }
    { identity := "alice@test.com", password := "wrong", organization_id := none }
    { identity := "bob@test.com", password := "password123",
      organization_id := none }
    aliceRow sampleHash samplePhc bobRow (by decide) (by decide) (by decide)
    (by decide) (by decide) (by decide) (by decide)
  ⟨h.1, h.2.1, h.2.2.1⟩

/-- C4 counterexample: against a credential whose stored hash is
unparseable, login returns a 500 internal_error, not the uniform 401
AuthenticationFailure the claim asserts. -/
theorem C4_counterexample :
    login (fun _ _ => true)
        { findUserByIdentity := fun i =>
            if i == "alice@test.com"
            then some { id := 1, name := "Alice", identity := "alice@test.com",
                        password_hash := some "not-a-hash" }
            else none,
          orgsOf := fun _ => [],
          userNameById := fun _ => none,
          membership := fun _ _ => none } 0 "s"
        { identity := "alice@test.com", password := "pw",
          organization_id := none } =
      .err 500 (internal_error "Failed to parse password hash: invalid encoding") ∧
    LoginResult.err 500
        (internal_error "Failed to parse password hash: invalid encoding") ≠
      invalid_credentials_error := by
  exact ⟨by decide, by decide⟩

/-- C4 (amended): an unparseable stored hash makes verify_password return an
error rather than false, and the login handler maps that error to a 500
internal_error response — not the uniform 401; only a missing secret_hash or
a parseable hash that fails to match is folded into AuthenticationFailure. -/
theorem C4_unparseable_hash_is_internal_error
    (argonVerify : String → PhcHash → Bool) (db : Db) (now : Int)
    (jwt_secret : String) (req : LoginRequest) (u : UserRow) (h : String)
    (Hu : db.findUserByIdentity req.identity = some u)
    (Hh : u.password_hash = some h)
    (Hp : phcParse h = none) :
    PasswordHasher.verify_password argonVerify req.password h =
      .error "Failed to parse password hash: invalid encoding" ∧
    login argonVerify db now jwt_secret req =
      .err 500 (internal_error "Failed to parse password hash: invalid encoding") ∧
    login argonVerify db now jwt_secret req ≠ invalid_credentials_error := by
  have hv : PasswordHasher.verify_password argonVerify req.password h =
      .error "Failed to parse password hash: invalid encoding" := by
    simp [PasswordHasher.verify_password, Hp]
  have hl : login argonVerify db now jwt_secret req =
      .err 500 (internal_error "Failed to parse password hash: invalid encoding") := by
    simp [login, Hu, Hh, hv]
  refine ⟨hv, hl, ?_⟩
  rw [hl]; decide

/-- Witness for C4's amended statement at a concrete unparseable hash. -/
theorem C4_unparseable_hash_is_internal_error_witness :
    login (fun _ _ => false)
        { findUserByIdentity := fun i =>
            if i == "carol@test.com"
            then some { id := 4, name := "Carol", identity := "carol@test.com",
                        password_hash := some "zzz" }
            else none,
          orgsOf := fun _ => [],
          userNameById := fun _ => none,
          membership := fun _ _ => none } 0 "s"
        { identity := "carol@test.com", password := "pw",
          organization_id := none } =
      .err 500 (internal_error "Failed to parse password hash: invalid encoding") :=
  (C4_unparseable_hash_is_internal_error (fun _ _ => false)
    { findUserByIdentity := fun i =>
        if i == "carol@test.com"
        then some { id := 4, name := "Carol", identity := "carol@test.com",
                    password_hash := some "zzz" }
        else none,
      orgsOf := fun _ => [],
      userNameById := fun _ => none,
      membership := fun _ _ => none } 0 "s"
    { identity := "carol@test.com", password := "pw", organization_id := none }
    { id := 4, name := "Carol", identity := "carol@test.com",
      password_hash := some "zzz" } "zzz"
    (by decide) (by decide) (by decide)).2.1

/-- C5 counterexample: two invalid tokens — one expired, one bearing a wrong
MAC — produce different error values from validate_token, so the failure
cause is distinguishable from the returned error value alone. -/
theorem C5_counterexample :
    TokenManager.validate_token ⟨"s"⟩ 10000 expiredTok =
      .error "Failed to validate token: ExpiredSignature" ∧
    TokenManager.validate_token ⟨"s"⟩ 10000 forgedTok =
      .error "Failed to validate token: InvalidSignature" ∧
    ("Failed to validate token: ExpiredSignature" : String) ≠
      "Failed to validate token: InvalidSignature" := by
  exact ⟨by decide, by decide, by decide⟩

/-- C5 (amended): validate_token folds every failure into a single error
type whose message still embeds the distinct cause; the claimed
indistinguishability holds at the request boundary, where auth_middleware
maps every invalid token to one identical 401 rejection. -/
theorem C5_middleware_uniform_rejection (jwt_secret : String)
    (now1 now2 : Int) (t1 t2 : Jwt)
    (h1 : exceptIsOk (TokenManager.validate_token ⟨jwt_secret⟩ now1 t1) = false)
    (h2 : exceptIsOk (TokenManager.validate_token ⟨jwt_secret⟩ now2 t2) = false) :
    auth_middleware jwt_secret now1 (some t1) =
      .reject 401 { error := "unauthorized",
                    message := "Invalid or expired token" } ∧
    auth_middleware jwt_secret now1 (some t1) =
      auth_middleware jwt_secret now2 (some t2) := by
  have f : ∀ (nw : Int) (t : Jwt),
      exceptIsOk (TokenManager.validate_token ⟨jwt_secret⟩ nw t) = false →
      auth_middleware jwt_secret nw (some t) =
        .reject 401 { error := "unauthorized",
                      message := "Invalid or expired token" } := by
    intro nw t h
    cases hv : TokenManager.validate_token ⟨jwt_secret⟩ nw t with
    | ok c => rw [hv] at h; simp [exceptIsOk] at h
    | error e => simp [auth_middleware, hv]
  exact ⟨f now1 t1 h1, (f now1 t1 h1).trans (f now2 t2 h2).symm⟩

/-- Witness for C5's amended statement: an expired and a forged token both
hit the identical middleware rejection. -/
theorem C5_middleware_uniform_rejection_witness :
    auth_middleware "s" 10000 (some expiredTok) =
      auth_middleware "s" 10000 (some forgedTok) :=
  (C5_middleware_uniform_rejection "s" 10000 10000 expiredTok forgedTok
    (by decide) (by decide)).2

/-- C6 counterexample: a follow-on token issued at instant 0 is still
accepted 301 seconds later, contradicting the claimed rejection at T+301s. -/
theorem C6_counterexample :
    TokenManager.validate_follow_on_token ⟨"s"⟩ 301
        (TokenManager.generate_follow_on_token ⟨"s"⟩ 0 1 "a") =
      .ok { sub := 1, identity := "a", iat := 0, exp := 300 } := by
  decide

/-- C6 (amended): the follow-on expiry is exactly 300 seconds after issuance
and the token is accepted at T+299s; but validation applies the default
60-second leeway, so it is still accepted at T+301s and through T+360s, and
first rejected at T+361s. -/
theorem C6_follow_on_lifetime_with_leeway (tm : TokenManager) (now : Int)
    (uid : Uuid) (ident : String) :
    (tm.generate_follow_on_token now uid ident).payload.exp = some (now + 300) ∧
    tm.validate_follow_on_token (now + 299)
        (tm.generate_follow_on_token now uid ident) =
      .ok { sub := uid, identity := ident, iat := now, exp := now + 300 } ∧
    tm.validate_follow_on_token (now + 301)
        (tm.generate_follow_on_token now uid ident) =
      .ok { sub := uid, identity := ident, iat := now, exp := now + 300 } ∧
    tm.validate_follow_on_token (now + 360)
        (tm.generate_follow_on_token now uid ident) =
      .ok { sub := uid, identity := ident, iat := now, exp := now + 300 } ∧
    tm.validate_follow_on_token (now + 361)
        (tm.generate_follow_on_token now uid ident) =
      .error "Failed to validate follow-on token: ExpiredSignature" := by
  have hcond : now + 300 < (now + 361) - jwtLeeway := by
    simp [jwtLeeway]; omega
  refine ⟨rfl,
    validate_generate_follow_on tm now (now + 299) uid ident
      (by simp [jwtLeeway]; omega),
    validate_generate_follow_on tm now (now + 301) uid ident
      (by simp [jwtLeeway]; omega),
    validate_generate_follow_on tm now (now + 360) uid ident
      (by simp [jwtLeeway]; omega), ?_⟩
  simp [TokenManager.validate_follow_on_token, TokenManager.decodeFollowOnClaims,
    TokenManager.generate_follow_on_token, FollowOnClaims.toPayload,
    Payload.specClaimsCheck, Payload.expCheck, Except.mapError,
    JwtError.render, hcond]

/-- C1: the login decision procedure for a request whose credentials verify:
empty membership list gives 403 no_organization; a supplied target not among
the memberships gives 403 invalid_organization; a supplied target that is
present gives SessionIssued with a token scoped to that organization and its
membership's roles; exactly one membership auto-selects it; two or more
memberships with no target give OrgChoiceRequired with one choice per
membership plus a follow-on token, a shape distinct from SessionIssued. -/
theorem C1_login_decision
    (argonVerify : String → PhcHash → Bool) (db : Db) (now : Int)
    (jwt_secret : String) (req : LoginRequest) (u : UserRow) (h : String)
    (ph : PhcHash)
    (Hu : db.findUserByIdentity req.identity = some u)
    (Hh : u.password_hash = some h)
    (Hp : phcParse h = some ph)
    (Hv : argonVerify req.password ph = true) :
    (db.orgsOf u.id = [] →
      login argonVerify db now jwt_secret req =
        .err 403 { error := "no_organization",
                   message := "User is not a member of any organization" }) ∧
    (∀ o : Uuid, req.organization_id = some o → db.orgsOf u.id ≠ [] →
      (db.orgsOf u.id).find? (fun r => r.id == o) = none →
      login argonVerify db now jwt_secret req =
        .err 403 { error := "invalid_organization",
                   message := "User is not a member of the specified organization" }) ∧
    (∀ (o : Uuid) (row : OrgRow), req.organization_id = some o →
      (db.orgsOf u.id).find? (fun r => r.id == o) = some row →
      login argonVerify db now jwt_secret req =
        .ok 200 (.session (sessionResponse ⟨jwt_secret⟩ now u row)) ∧
      row.id = o ∧
      TokenManager.validate_token ⟨jwt_secret⟩ now
          (sessionResponse ⟨jwt_secret⟩ now u row).token =
        .ok { sub := u.id, identity := u.identity, organization_id := o,
              roles := row.roles, iat := now, exp := now + 3600 * 24 }) ∧
    (∀ row : OrgRow, req.organization_id = none → db.orgsOf u.id = [row] →
      login argonVerify db now jwt_secret req =
        .ok 200 (.session (sessionResponse ⟨jwt_secret⟩ now u row)) ∧
      TokenManager.validate_token ⟨jwt_secret⟩ now
          (sessionResponse ⟨jwt_secret⟩ now u row).token =
        .ok { sub := u.id, identity := u.identity, organization_id := row.id,
              roles := row.roles, iat := now, exp := now + 3600 * 24 }) ∧
    (∀ (r1 r2 : OrgRow) (rs : List OrgRow), req.organization_id = none →
      db.orgsOf u.id = r1 :: r2 :: rs →
      login argonVerify db now jwt_secret req =
        .ok 200 (.orgChoice
          { organizations := (db.orgsOf u.id).map (fun r =>
              { id := r.id, name := r.name, description := r.description,
                roles := r.roles }),
            follow_on_token :=
              TokenManager.generate_follow_on_token ⟨jwt_secret⟩ now u.id
                u.identity }) ∧
      ((db.orgsOf u.id).map (fun r =>
          ({ id := r.id, name := r.name, description := r.description,
             roles := r.roles } : OrganizationWithRoles))).length =
        (db.orgsOf u.id).length ∧
      (∀ (resp : LoginResponse) (oc : OrgSelectionResponse),
        ApiBody.orgChoice oc ≠ ApiBody.session resp)) := by
  have hverify : PasswordHasher.verify_password argonVerify req.password h =
      .ok true := by
    simp [PasswordHasher.verify_password, Hp, Hv]
  refine ⟨?_, ?_, ?_, ?_, ?_⟩
  · intro hempty
    simp [login, Hu, Hh, hverify, hempty]
  · intro o ho hne hfind
    cases hrows : db.orgsOf u.id with
    | nil => exact absurd hrows hne
    | cons f rs =>
      rw [hrows] at hfind
      simp [login, Hu, Hh, hverify, hrows, ho, hfind]
  · intro o row ho hfind
    have hrow : row.id = o := by
      have hp := List.find?_some hfind
      simpa using hp
    have hne : db.orgsOf u.id ≠ [] := by
      intro hnil; rw [hnil] at hfind; simp at hfind
    cases hrows : db.orgsOf u.id with
    | nil => exact absurd hrows hne
    | cons f rs =>
      rw [hrows] at hfind
      refine ⟨by simp [login, Hu, Hh, hverify, hrows, ho, hfind], hrow, ?_⟩
      rw [show (sessionResponse ⟨jwt_secret⟩ now u row).token =
          TokenManager.generate_token ⟨jwt_secret⟩ now u.id u.identity row.id
            row.roles 24 from rfl]
      rw [validate_generate_token ⟨jwt_secret⟩ now now u.id u.identity row.id
        row.roles 24 (by simp [jwtLeeway]; omega)]
      rw [hrow]
  · intro row hnone hrows
    refine ⟨by simp [login, Hu, Hh, hverify, hrows, hnone], ?_⟩
    rw [show (sessionResponse ⟨jwt_secret⟩ now u row).token =
        TokenManager.generate_token ⟨jwt_secret⟩ now u.id u.identity row.id
          row.roles 24 from rfl]
    exact validate_generate_token ⟨jwt_secret⟩ now now u.id u.identity row.id
      row.roles 24 (by simp [jwtLeeway]; omega)
  · intro r1 r2 rs hnone hrows
    refine ⟨by simp [login, Hu, Hh, hverify, hrows, hnone], by simp, ?_⟩
    intro resp oc hcon
    exact ApiBody.noConfusion hcon

/-- Witness for C1: Alice, two memberships, no target organization — the
response is the OrgChoiceRequired shape with one choice per membership. -/
theorem C1_login_decision_witness :
    login sampleVerify sampleDb 0 "s"
        { identity := "alice@test.com", password := "password123",
          organization_id := none } =
      .ok 200 (.orgChoice
        { organizations := (sampleDb.orgsOf aliceRow.id).map (fun r =>
            { id := r.id, name := r.name, description := r.description,
              roles := r.roles }),
          follow_on_token := TokenManager.generate_follow_on_token ⟨"s"⟩ 0
            aliceRow.id aliceRow.identity }) :=
  ((C1_login_decision sampleVerify sampleDb 0 "s"
      { identity := "alice@test.com", password := "password123",
        organization_id := none }
      aliceRow sampleHash samplePhc (by decide) (by decide) (by decide)
      (by decide)).2.2.2.2 orgA orgB [] rfl (by decide)).1

/-- C8: the select_org decision procedure: an invalid or expired follow-on
token gives 401 invalid_token; a valid token whose subject user no longer
exists gives a distinct 401 user_not_found; a subject who is not a member of
the requested organization gives 403 not_member; otherwise SessionIssued
with a token scoped to the requested organization and that membership's
roles. -/
theorem C8_select_org_decision (db : Db) (now : Int) (jwt_secret : String)
    (req : SelectOrgRequest) :
    (exceptIsOk (TokenManager.validate_follow_on_token ⟨jwt_secret⟩ now
        req.follow_on_token) = false →
      select_org db now jwt_secret req =
        .err 401 { error := "invalid_token",
                   message := "Invalid or expired follow-on token" }) ∧
    (∀ c : FollowOnClaims,
      TokenManager.validate_follow_on_token ⟨jwt_secret⟩ now
          req.follow_on_token = .ok c →
      db.userNameById c.sub = none →
      select_org db now jwt_secret req =
        .err 401 { error := "user_not_found", message := "User not found" } ∧
      ({ error := "user_not_found", message := "User not found" } :
          ErrorResponse) ≠
        { error := "invalid_token",
          message := "Invalid or expired follow-on token" }) ∧
    (∀ (c : FollowOnClaims) (nm : String),
      TokenManager.validate_follow_on_token ⟨jwt_secret⟩ now
          req.follow_on_token = .ok c →
      db.userNameById c.sub = some nm →
      db.membership c.sub req.organization_id = none →
      select_org db now jwt_secret req =
        .err 403 { error := "not_member",
                   message := "User is not a member of the specified organization" }) ∧
    (∀ (c : FollowOnClaims) (nm orgName : String) (orgDesc : Option String)
        (roles : List String),
      TokenManager.validate_follow_on_token ⟨jwt_secret⟩ now
          req.follow_on_token = .ok c →
      db.userNameById c.sub = some nm →
      db.membership c.sub req.organization_id = some (orgName, orgDesc, roles) →
      select_org db now jwt_secret req =
        .ok { token := TokenManager.generate_token ⟨jwt_secret⟩ now c.sub
                c.identity req.organization_id roles 24,
              expires_in := 24 * 60 * 60,
              user := { id := c.sub, name := nm, identity := c.identity,
                        organization := { id := req.organization_id,
                                          name := orgName,
                                          description := orgDesc,
                                          created_at := now,
                                          updated_at := now },
                        roles := roles } } ∧
      TokenManager.validate_token ⟨jwt_secret⟩ now
          (TokenManager.generate_token ⟨jwt_secret⟩ now c.sub c.identity
            req.organization_id roles 24) =
        .ok { sub := c.sub, identity := c.identity,
              organization_id := req.organization_id, roles := roles,
              iat := now, exp := now + 3600 * 24 }) := by
  refine ⟨?_, ?_, ?_, ?_⟩
  · intro hbad
    cases hv : TokenManager.validate_follow_on_token ⟨jwt_secret⟩ now
        req.follow_on_token with
    | ok c => rw [hv] at hbad; simp [exceptIsOk] at hbad
    | error e => simp [select_org, hv]
  · intro c hv hnone
    exact ⟨by simp [select_org, hv, hnone], by decide⟩
  · intro c nm hv hnm hmem
    simp [select_org, hv, hnm, hmem]
  · intro c nm orgName orgDesc roles hv hnm hmem
    refine ⟨by simp [select_org, hv, hnm, hmem], ?_⟩
    exact validate_generate_token ⟨jwt_secret⟩ now now c.sub c.identity
      req.organization_id roles 24 (by simp [jwtLeeway]; omega)

/-- Witness for C8: redeeming Alice's follow-on token for her second
organization issues a session scoped to it with that membership's roles. -/
theorem C8_select_org_decision_witness :
    select_org sampleDb 0 "s"
        { follow_on_token := sampleFollowOn, organization_id := 20 } =
      .ok { token := TokenManager.generate_token ⟨"s"⟩ 0 1 "alice@test.com" 20
              ["ADMIN"] 24,
            expires_in := 24 * 60 * 60,
            user := { id := 1, name := "Alice", identity := "alice@test.com",
                      organization := { id := 20, name := "OrgB",
                                        description := some "b",
                                        created_at := 0, updated_at := 0 },
                      roles := ["ADMIN"] } } :=
  ((C8_select_org_decision sampleDb 0 "s"
      { follow_on_token := sampleFollowOn, organization_id := 20 }).2.2.2
    { sub := 1, identity := "alice@test.com", iat := 0, exp := 300 }
    "Alice" "OrgB" (some "b") ["ADMIN"] (by decide) (by decide) (by decide)).1

end Vostuff
